import Mathlib

/-!
# VoiceScribe bot — shallow embedding and verification

This file embeds the message-handling flow of `bot.py` (a Telegram bot that
transcribes voice messages and summarizes them) and proves the specification
claims about it.

Modelling conventions:
* `handle_voice` is embedded as a pure function from an incoming message and
  an oracle `Env` (the outcomes of the three fallible external calls:
  `download_to_drive`, `transcriptions.create`, `chat.completions.create`)
  to the ordered list of observable events (messages sent, the status message
  created and edited, the temporary file created/removed, the remote calls
  made).  The `try/except` of the source is the `Except`-branching of the
  oracle; Python truthiness of strings/optionals is embedded explicitly.
* Python string primitives used by the source (`in`, `startswith`,
  `split('.')[-1]`, `strip`, `str(int)`) are embedded as executable list
  recursions so that every theorem can be evaluated on concrete inputs.
* Chat and message identifiers are modelled as naturals.
-/

namespace VoiceScribe

/-! ## Embeddings of the Python string primitives -/

/-- Does `p` occur at the head of `s`?  (Helper for substring / startswith.) -/
def leadMatch : List Char → List Char → Bool
  | [], _ => true
  | _ :: _, [] => false
  | p :: ps, c :: cs => p == c && leadMatch ps cs

/-- Does `pat` occur anywhere in `s`?  Embeds Python `pat in s`. -/
def hasSub (pat : List Char) : List Char → Bool
  | [] => leadMatch pat []
  | c :: cs => leadMatch pat (c :: cs) || hasSub pat cs

/-- Embeds Python `pat in s` on strings. -/
def strContains (s pat : String) : Bool := hasSub pat.data s.data

/-- Embeds Python `s.startswith(p)`. -/
def pyStarts (s p : String) : Bool := leadMatch p.data s.data

/-- Split a character list on `'.'`; accumulator holds the current chunk
reversed.  Embeds Python `s.split('.')`. -/
def splitDotAux : List Char → List Char → List (List Char)
  | [], acc => [acc.reverse]
  | c :: cs, acc =>
    if c = '.' then acc.reverse :: splitDotAux cs [] else splitDotAux cs (c :: acc)

/-- Embeds Python `s.split('.')`. -/
def pySplitDot (s : String) : List String :=
  (splitDotAux s.data []).map (fun l => ⟨l⟩)

/-- Embeds Python `s.split('.')[-1]` (the split list is never empty, so the
default of `getLastD` is never used). -/
def pyLastSuffix (s : String) : String := (pySplitDot s).getLastD ""

/-- The whitespace set of Python `str.strip()`. -/
def pyWS (c : Char) : Bool :=
  c == ' ' || c == '\t' || c == '\n' || c == '\r' || c == '\x0b' || c == '\x0c'

/-- Embeds Python `s.strip()`. -/
def pyStrip (s : String) : String :=
  ⟨((s.data.dropWhile pyWS).reverse.dropWhile pyWS).reverse⟩

/-- Python truthiness of an optional string: `None` and `""` are falsy. -/
def optTruthy : Option String → Bool
  | none => false
  | some s => !(s == "")

/-- A decimal digit character. -/
def digitChar : Nat → Char
  | 0 => '0' | 1 => '1' | 2 => '2' | 3 => '3' | 4 => '4'
  | 5 => '5' | 6 => '6' | 7 => '7' | 8 => '8' | 9 => '9'
  | _ => '*'

/-- Decimal digits of `n`, most significant first, computed with explicit
fuel so that it reduces in the kernel. -/
def natDigitsAux : Nat → Nat → List Char
  | _, 0 => []
  | n, fuel + 1 =>
    if n < 10 then [digitChar n]
    else natDigitsAux (n / 10) fuel ++ [digitChar (n % 10)]

/-- Embeds Python `str(n)` for a natural `n`. -/
def natRepr (n : Nat) : String := ⟨natDigitsAux n (n + 1)⟩

/-- Numeric value of a digit character (inverse of `digitChar` below 10). -/
def dval (c : Char) : Nat :=
  if c = '0' then 0 else if c = '1' then 1 else if c = '2' then 2
  else if c = '3' then 3 else if c = '4' then 4 else if c = '5' then 5
  else if c = '6' then 6 else if c = '7' then 7 else if c = '8' then 8
  else if c = '9' then 9 else 0

/-- Decimal value of a character list, used to invert `natDigitsAux`. -/
def decVal (l : List Char) : Nat := l.foldl (fun a c => 10 * a + dval c) 0

/-! ## Data model (`telegram.Update` as consumed by `bot.py`) -/

/-- A Telegram voice attachment (never carries a filename). -/
structure VoiceAtt where
  file_id : String
  deriving DecidableEq

/-- A Telegram audio attachment. -/
structure AudioAtt where
  file_id : String
  file_name : Option String
  deriving DecidableEq

/-- A Telegram document attachment. -/
structure DocAtt where
  file_id : String
  file_name : Option String
  mime_type : Option String
  deriving DecidableEq

/-- The fields of `update.message` read by `handle_voice`. -/
structure Msg where
  chat_id : Nat
  message_id : Nat
  voice : Option VoiceAtt
  audio : Option AudioAtt
  document : Option DocAtt
  deriving DecidableEq

/-! ## Fixed texts of `bot.py` -/

/-- The rejection text of lines 80-83 and 88-91 of `bot.py`
(both sites send the identical string). -/
def unsupportedText : String :=
  "Я работаю только с аудиофайлами форматов .mp3, .ogg и .wav. Пожалуйста, отправьте голосовое сообщение или аудиозапись."

/-- Initial text of the status reply (line 95). -/
def processingText : String := "Файл получен. Обрабатываю..."

/-- Terminal text for an empty / whitespace-only transcript (lines 114-116). -/
def notRecognizedText : String :=
  "Не удалось распознать речь. Возможно, запись слишком тихая или содержит только шум."

/-- Generic failure text (line 150). -/
def genericErrorText : String := "Произошла ошибка при обработке аудио. Попробуйте ещё раз."

/-- Specific low-audio-quality failure text (line 153). -/
def lowQualityText : String :=
  "Качество записи низкое, не удалось обработать. Попробуйте записать сообщение в более тихом месте."

/-- The audio-quality failure signature matched against `str(e)` (line 152). -/
def qualitySig : String := "Could not process audio"

/-- The system prompt for the summarization call (lines 28-39). -/
def SYSTEM_PROMPT : String :=
  "Ты — ассистент для обработки транскрибированных голосовых сообщений.\n\nТвоя задача — выделить ключевые тезисы из текста.\n\nПравила:\n- Количество тезисов: от 3 до 7 (зависит от объёма информации)\n- Каждый тезис — одна законченная мысль\n- Порядок — по логике изложения в тексте\n- Без интерпретаций и домыслов — только то, что сказано\n- Формат: нумерованный список\n\nЕсли текст слишком короткий (1-2 предложения), выдели 1-2 главные мысли."

/-- The user message wrapped around the transcript (line 125). -/
def userContent (t : String) : String :=
  "Выдели тезисы из следующего текста:\n\n" ++ t

/-- The composed success reply (lines 134-140). -/
def resultMessage (t theses : String) : String :=
  "📝 Транскрипция:\n" ++ t ++ "\n\n📌 Тезисы:\n" ++ theses ++ "\n\nНужно что-то ещё?"

/-! ## The summarization request (lines 121-129) -/

/-- One chat message of the completion request. -/
structure ChatMessage where
  role : String
  content : String
  deriving DecidableEq

/-- The completion request sent to the summarization service. -/
structure ChatRequest where
  model : String
  messages : List ChatMessage
  temperature : ℚ
  max_tokens : Nat
  deriving DecidableEq

/-- The request `handle_voice` builds for transcript `t` (lines 121-129). -/
def mkChatRequest (t : String) : ChatRequest :=
  { model := "gpt-4o-mini"
    messages := [⟨"system", SYSTEM_PROMPT⟩, ⟨"user", userContent t⟩]
    temperature := 0.3
    max_tokens := 1000 }

/-! ## The handler as a trace-producing function -/

/-- Outcomes of the three fallible external calls, fixed per invocation.
For the download, a failure also records whether the partial local file was
created before the error (the source guards its cleanup with
`os.path.exists`). -/
structure Env where
  download : Except (Bool × String) Unit
  transcribe : Except String String
  summarize : Except String String

/-- Observable events of one `handle_voice` invocation, in program order. -/
inductive Ev where
  | sent (text : String)
  | statusCreated (text : String)
  | edited (text : String)
  | downloadCall (path : String)
  | fileCreated (path : String)
  | transcribeCall (path : String)
  | transcribeDone (t : String)
  | summarizeCall (req : ChatRequest)
  | fileRemoved (path : String)
  deriving DecidableEq

/-- Extension inference of lines 70-92: voice → `"ogg"`; audio → filename
suffix or `"mp3"`; document with `audio/` MIME → filename suffix or `"ogg"`;
otherwise `none` (the rejection path).  Filename truthiness is Python's. -/
def classify (m : Msg) : Option String :=
  match m.voice with
  | some _ => some "ogg"
  | none =>
    match m.audio with
    | some a =>
      some (if optTruthy a.file_name then pyLastSuffix (a.file_name.getD "") else "mp3")
    | none =>
      match m.document with
      | some d =>
        if pyStarts (d.mime_type.getD "") "audio/" then
          some (if optTruthy d.file_name then pyLastSuffix (d.file_name.getD "") else "ogg")
        else none
      | none => none

/-- The deterministic temporary path (line 99): `voice_<chat>_<msg>.<ext>`. -/
def file_path (chat_id message_id : Nat) (ext : String) : String :=
  "voice_" ++ natRepr chat_id ++ "_" ++ natRepr message_id ++ "." ++ ext

/-- The temporary path of one invocation. -/
def file_path_of (m : Msg) (ext : String) : String :=
  file_path m.chat_id m.message_id ext

/-- Error text selection of the `except` block (lines 148-155). -/
def errText (e : String) : String :=
  if strContains e qualitySig then lowQualityText else genericErrorText

/-- The events of the `except` block (lines 148-159): edit the status reply
to the classified error text, then remove the file if it exists. -/
def exceptEvents (fp : String) (onDisk : Bool) (e : String) : List Ev :=
  Ev.edited (errText e) :: (if onDisk then [Ev.fileRemoved fp] else [])

/-- The `try` block of `handle_voice` (lines 97-159), given the already
computed temporary path. -/
def pipeline (fp : String) (env : Env) : List Ev :=
  match env.download with
  | .error pe =>
    Ev.downloadCall fp :: ((if pe.1 then [Ev.fileCreated fp] else []) ++ exceptEvents fp pe.1 pe.2)
  | .ok _ =>
    Ev.downloadCall fp :: Ev.fileCreated fp :: Ev.transcribeCall fp ::
    match env.transcribe with
    | .error e => exceptEvents fp true e
    | .ok t =>
      Ev.transcribeDone t ::
      if t == "" || pyStrip t == "" then
        [Ev.edited notRecognizedText, Ev.fileRemoved fp]
      else
        Ev.summarizeCall (mkChatRequest t) ::
        match env.summarize with
        | .error e => exceptEvents fp true e
        | .ok theses => [Ev.edited (resultMessage t theses), Ev.fileRemoved fp]

/-- `handle_voice` (lines 66-159) as a trace of observable events: classify
the attachment (rejecting non-audio input with a single sent message),
create the status reply, then run the pipeline. -/
def handle_voice (m : Msg) (env : Env) : List Ev :=
  match classify m with
  | none => [Ev.sent unsupportedText]
  | some ext => Ev.statusCreated processingText :: pipeline (file_path_of m ext) env

/-! ## Startup (`main`, lines 170-193) -/

/-- The process environment variables. -/
structure OsEnv where
  vars : List (String × String)
  deriving DecidableEq

/-- Embeds `os.getenv`. -/
def getenv (env : OsEnv) (k : String) : Option String :=
  (env.vars.find? (fun p => p.1 == k)).map (fun p => p.2)

/-- Outcome of `main`: the raised configuration error if any, whether the
application object was constructed, and whether polling was started. -/
structure MainResult where
  raised : Option String
  appBuilt : Bool
  servingStarted : Bool
  deriving DecidableEq

/-- `main` (lines 170-193): check the two secrets (Python truthiness, so an
empty value also raises), then build the application and start polling. -/
def main_run (env : OsEnv) : MainResult :=
  if !(optTruthy (getenv env "TELEGRAM_BOT_TOKEN")) then
    ⟨some "TELEGRAM_BOT_TOKEN не установлен!", false, false⟩
  else if !(optTruthy (getenv env "OPENAI_API_KEY")) then
    ⟨some "OPENAI_API_KEY не установлен!", false, false⟩
  else
    ⟨none, true, true⟩

/-! ## Derived notions used in the statements -/

/-- Recognizer for status-reply creation events. -/
def isStatus : Ev → Bool
  | .statusCreated _ => true
  | _ => false

/-- Recognizer for status-reply edit events. -/
def isEdit : Ev → Bool
  | .edited _ => true
  | _ => false

/-- Recognizer for plain sent messages. -/
def isSent : Ev → Bool
  | .sent _ => true
  | _ => false

/-- The exception (if any) that the `try` block of `handle_voice` raises
under oracle `env`: a download failure, a transcription failure, or — when
the transcript is non-empty — a summarization failure. -/
def stageError (env : Env) : Option String :=
  match env.download with
  | .error pe => some pe.2
  | .ok _ =>
    match env.transcribe with
    | .error e => some e
    | .ok t =>
      if t == "" || pyStrip t == "" then none
      else
        match env.summarize with
        | .error e => some e
        | .ok _ => none

/-! ## Helper lemmas: decimal representation -/

theorem digitChar_ne_sep (k : Nat) : digitChar k ≠ '_' ∧ digitChar k ≠ '.' := by
  match k with
  | 0 | 1 | 2 | 3 | 4 | 5 | 6 | 7 | 8 | 9 => exact ⟨by decide, by decide⟩
  | n + 10 => exact ⟨show ('*' : Char) ≠ '_' by decide, show ('*' : Char) ≠ '.' by decide⟩

theorem mem_natDigitsAux {c : Char} : ∀ fuel n, c ∈ natDigitsAux n fuel → ∃ k, c = digitChar k := by
  intro fuel
  induction fuel with
  | zero => intro n h; simp [natDigitsAux] at h
  | succ fuel ih =>
    intro n h
    by_cases h10 : n < 10
    · simp [natDigitsAux, h10] at h
      exact ⟨n, h⟩
    · simp [natDigitsAux, h10] at h
      rcases h with h | h
      · exact ih _ h
      · exact ⟨n % 10, h⟩

theorem natDigitsAux_ne_sep {c : Char} (fuel n : Nat) (h : c ∈ natDigitsAux n fuel) :
    c ≠ '_' ∧ c ≠ '.' := by
  obtain ⟨k, rfl⟩ := mem_natDigitsAux fuel n h
  exact digitChar_ne_sep k

theorem dval_digitChar : ∀ n, n < 10 → dval (digitChar n) = n := by decide

theorem decVal_concat (xs : List Char) (c : Char) :
    decVal (xs ++ [c]) = 10 * decVal xs + dval c := by
  simp [decVal, List.foldl_append]

theorem decVal_natDigitsAux : ∀ fuel n, n < fuel → decVal (natDigitsAux n fuel) = n := by
  intro fuel
  induction fuel with
  | zero => intro n h; omega
  | succ fuel ih =>
    intro n h
    by_cases h10 : n < 10
    · simp [natDigitsAux, h10, decVal, dval_digitChar n h10]
    · have hdiv : n / 10 < fuel := by
        have h1 : n / 10 < n := Nat.div_lt_self (by omega) (by omega)
        omega
      simp only [natDigitsAux, if_neg h10]
      rw [decVal_concat, ih _ hdiv, dval_digitChar _ (Nat.mod_lt n (by omega))]
      omega

theorem natDigitsAux_inj {n n' : Nat}
    (h : natDigitsAux n (n + 1) = natDigitsAux n' (n' + 1)) : n = n' := by
  have h1 := decVal_natDigitsAux (n + 1) n (by omega)
  have h2 := decVal_natDigitsAux (n' + 1) n' (by omega)
  rw [← h1, ← h2, h]

/-- Splitting at a separator absent from both left parts is unambiguous. -/
theorem append_sep_inj (sep : Char) :
    ∀ (a a' b b' : List Char), (∀ c ∈ a, c ≠ sep) → (∀ c ∈ a', c ≠ sep) →
      a ++ sep :: b = a' ++ sep :: b' → a = a' ∧ b = b' := by
  intro a
  induction a with
  | nil =>
    intro a' b b' _ ha' h
    cases a' with
    | nil => simpa using h
    | cons x xs =>
      simp only [List.nil_append, List.cons_append, List.cons.injEq] at h
      exact absurd h.1.symm (ha' x (by simp))
  | cons x xs ih =>
    intro a' b b' ha ha' h
    cases a' with
    | nil =>
      simp only [List.nil_append, List.cons_append, List.cons.injEq] at h
      exact absurd h.1 (ha x (by simp))
    | cons y ys =>
      simp only [List.cons_append, List.cons.injEq] at h
      obtain ⟨rfl, h⟩ := h
      obtain ⟨h1, h2⟩ := ih ys b b' (fun c hc => ha c (by simp [hc]))
        (fun c hc => ha' c (by simp [hc])) h
      exact ⟨by rw [h1], h2⟩

/-- The data of the temporary path, flattened. -/
theorem file_path_data (c m : Nat) (e : String) :
    (file_path c m e).data =
      'v' :: 'o' :: 'i' :: 'c' :: 'e' :: '_' ::
        (natDigitsAux c (c + 1) ++ '_' :: (natDigitsAux m (m + 1) ++ '.' :: e.data)) := by
  simp [file_path, natRepr, String.data_append]

/-- Distinct (chat id, message id) pairs give distinct temporary paths,
whatever the extensions are. -/
theorem file_path_inj (c m c' m' : Nat) (e e' : String)
    (h : file_path c m e = file_path c' m' e') : c = c' ∧ m = m' := by
  have hd := congrArg String.data h
  rw [file_path_data, file_path_data] at hd
  simp only [List.cons.injEq, true_and] at hd
  obtain ⟨hc, hrest⟩ := append_sep_inj '_' _ _ _ _
    (fun x hx => (natDigitsAux_ne_sep _ _ hx).1)
    (fun x hx => (natDigitsAux_ne_sep _ _ hx).1) hd
  obtain ⟨hm, -⟩ := append_sep_inj '.' _ _ _ _
    (fun x hx => (natDigitsAux_ne_sep _ _ hx).2)
    (fun x hx => (natDigitsAux_ne_sep _ _ hx).2) hrest
  exact ⟨natDigitsAux_inj hc, natDigitsAux_inj hm⟩

/-! ## Helper lemmas: trace shapes -/

/-- Exhaustive enumeration of the traces the `try` block can produce:
download failure (file absent / present), transcription failure, empty
transcript, summarization failure, success. -/
theorem pipeline_shape (fp : String) (env : Env) :
    (∃ e, pipeline fp env = Ev.downloadCall fp :: exceptEvents fp false e)
  ∨ (∃ e, pipeline fp env =
        Ev.downloadCall fp :: Ev.fileCreated fp :: exceptEvents fp true e)
  ∨ (∃ e, pipeline fp env =
        Ev.downloadCall fp :: Ev.fileCreated fp :: Ev.transcribeCall fp ::
          exceptEvents fp true e)
  ∨ (∃ t, (t == "" || pyStrip t == "") = true ∧
        pipeline fp env = [Ev.downloadCall fp, Ev.fileCreated fp, Ev.transcribeCall fp,
          Ev.transcribeDone t, Ev.edited notRecognizedText, Ev.fileRemoved fp])
  ∨ (∃ t e, (t == "" || pyStrip t == "") = false ∧
        pipeline fp env = Ev.downloadCall fp :: Ev.fileCreated fp :: Ev.transcribeCall fp ::
          Ev.transcribeDone t :: Ev.summarizeCall (mkChatRequest t) :: exceptEvents fp true e)
  ∨ (∃ t th, (t == "" || pyStrip t == "") = false ∧
        pipeline fp env = [Ev.downloadCall fp, Ev.fileCreated fp, Ev.transcribeCall fp,
          Ev.transcribeDone t, Ev.summarizeCall (mkChatRequest t),
          Ev.edited (resultMessage t th), Ev.fileRemoved fp]) := by
  rcases env with ⟨dl, tr, sm⟩
  rcases dl with ⟨created, e⟩ | u
  · cases created
    · exact Or.inl ⟨e, by simp [pipeline]⟩
    · exact Or.inr (Or.inl ⟨e, by simp [pipeline]⟩)
  · rcases tr with e | t
    · exact Or.inr (Or.inr (Or.inl ⟨e, by simp [pipeline]⟩))
    · by_cases ht : (t == "" || pyStrip t == "") = true
      · exact Or.inr (Or.inr (Or.inr (Or.inl ⟨t, ht, by simp [pipeline, ht]⟩)))
      · rcases sm with e | th
        · exact Or.inr (Or.inr (Or.inr (Or.inr (Or.inl
            ⟨t, e, by simpa using ht, by simp [pipeline, ht]⟩))))
        · exact Or.inr (Or.inr (Or.inr (Or.inr (Or.inr
            ⟨t, th, by simpa using ht, by simp [pipeline, ht]⟩))))

/-- A `handle_voice` trace is either the single rejection message, or the
status-reply creation followed by a pipeline trace on the deterministic
temporary path. -/
theorem handle_voice_shape (m : Msg) (env : Env) :
    (classify m = none ∧ handle_voice m env = [Ev.sent unsupportedText])
  ∨ (∃ ext, classify m = some ext ∧
      handle_voice m env =
        Ev.statusCreated processingText :: pipeline (file_path_of m ext) env) := by
  rcases hc : classify m with - | ext
  · exact Or.inl ⟨rfl, by simp [handle_voice, hc]⟩
  · exact Or.inr ⟨ext, rfl, by simp [handle_voice, hc]⟩

/-! ## The claims -/

/-- C1: every invocation of `handle_voice` that creates the temporary audio
file also deletes it before returning, on every exit path — success,
empty transcript, or an error raised in the download, transcribe or
summarize step (in the trace model: every `fileCreated` event is matched by
a `fileRemoved` event for the same path). -/
theorem C1_temp_file_cleanup (m : Msg) (env : Env) (p : String)
    (h : Ev.fileCreated p ∈ handle_voice m env) :
    Ev.fileRemoved p ∈ handle_voice m env := by
  rcases handle_voice_shape m env with ⟨-, hv⟩ | ⟨ext, -, hv⟩
  · rw [hv] at h
    simp at h
  · rw [hv] at h ⊢
    rcases pipeline_shape (file_path_of m ext) env with
      ⟨e, hp⟩ | ⟨e, hp⟩ | ⟨e, hp⟩ | ⟨t, ht, hp⟩ | ⟨t, e, ht, hp⟩ | ⟨t, th, ht, hp⟩ <;>
      rw [hp] at h ⊢ <;> simp [exceptEvents] at h ⊢ <;> simp [h]

/-- C1 witness: a concrete successful invocation creates the file and the
theorem yields its removal. -/
theorem C1_temp_file_cleanup_witness :
    Ev.fileRemoved "voice_1_2.ogg" ∈
      handle_voice ⟨1, 2, some ⟨"fid"⟩, none, none⟩ ⟨.ok (), .ok "привет мир", .ok "1. тезис"⟩ :=
  C1_temp_file_cleanup ⟨1, 2, some ⟨"fid"⟩, none, none⟩ ⟨.ok (), .ok "привет мир", .ok "1. тезис"⟩
    "voice_1_2.ogg" (by decide)

/-- C2: on an event whose only attachment is a document with a MIME type not
beginning with `audio/`, `handle_voice` sends exactly the static
unsupported-input rejection and never attempts the download (no
`downloadCall` and no `fileCreated` event). -/
theorem C2_document_reject (m : Msg) (env : Env) (d : DocAtt)
    (hv : m.voice = none) (ha : m.audio = none) (hd : m.document = some d)
    (hm : pyStarts (d.mime_type.getD "") "audio/" = false) :
    handle_voice m env = [Ev.sent unsupportedText] ∧
    (∀ p, Ev.downloadCall p ∉ handle_voice m env) ∧
    (∀ p, Ev.fileCreated p ∉ handle_voice m env) := by
  have hc : classify m = none := by
    simp [classify, hv, ha, hd, hm]
  refine ⟨by simp [handle_voice, hc], ?_, ?_⟩ <;> intro p <;> simp [handle_voice, hc]

/-- C2 witness: a concrete `text/plain` document is rejected without a
download attempt. -/
theorem C2_document_reject_witness :
    handle_voice ⟨1, 2, none, none, some ⟨"fid", some "notes.txt", some "text/plain"⟩⟩
        ⟨.ok (), .ok "x", .ok "y"⟩ = [Ev.sent unsupportedText] ∧
    (∀ p, Ev.downloadCall p ∉
      handle_voice ⟨1, 2, none, none, some ⟨"fid", some "notes.txt", some "text/plain"⟩⟩
        ⟨.ok (), .ok "x", .ok "y"⟩) ∧
    (∀ p, Ev.fileCreated p ∉
      handle_voice ⟨1, 2, none, none, some ⟨"fid", some "notes.txt", some "text/plain"⟩⟩
        ⟨.ok (), .ok "x", .ok "y"⟩) :=
  C2_document_reject _ _ ⟨"fid", some "notes.txt", some "text/plain"⟩ rfl rfl rfl (by decide)

/-- C3: on every audio-pipeline invocation, exactly one status reply is
created, it is edited at most once, and no further separate message is
sent, whichever branch is taken. -/
theorem C3_single_status (m : Msg) (env : Env) (ext : String)
    (hc : classify m = some ext) :
    ((handle_voice m env).filter isStatus).length = 1 ∧
    ((handle_voice m env).filter isEdit).length ≤ 1 ∧
    ((handle_voice m env).filter isSent).length = 0 := by
  have hv : handle_voice m env =
      Ev.statusCreated processingText :: pipeline (file_path_of m ext) env := by
    simp [handle_voice, hc]
  rw [hv]
  rcases pipeline_shape (file_path_of m ext) env with
    ⟨e, hp⟩ | ⟨e, hp⟩ | ⟨e, hp⟩ | ⟨t, ht, hp⟩ | ⟨t, e, ht, hp⟩ | ⟨t, th, ht, hp⟩ <;>
    rw [hp] <;> simp [exceptEvents, isStatus, isEdit, isSent]

/-- C3 witness: the counts on a concrete successful invocation. -/
theorem C3_single_status_witness :
    ((handle_voice ⟨1, 2, some ⟨"fid"⟩, none, none⟩
        ⟨.ok (), .ok "привет мир", .ok "1. тезис"⟩).filter isStatus).length = 1 ∧
    ((handle_voice ⟨1, 2, some ⟨"fid"⟩, none, none⟩
        ⟨.ok (), .ok "привет мир", .ok "1. тезис"⟩).filter isEdit).length ≤ 1 ∧
    ((handle_voice ⟨1, 2, some ⟨"fid"⟩, none, none⟩
        ⟨.ok (), .ok "привет мир", .ok "1. тезис"⟩).filter isSent).length = 0 :=
  C3_single_status ⟨1, 2, some ⟨"fid"⟩, none, none⟩ ⟨.ok (), .ok "привет мир", .ok "1. тезис"⟩
    "ogg" rfl

/-- C4: when the transcription succeeds with an empty or whitespace-only
transcript, the handler edits the status reply to the fixed "speech not
recognized" text, deletes the temporary file, terminates with exactly this
normal trace (no error edit), and never calls the summarization client. -/
theorem C4_empty_transcript (m : Msg) (env : Env) (ext t : String)
    (hc : classify m = some ext) (hdl : env.download = .ok ())
    (htr : env.transcribe = .ok t) (he : t = "" ∨ pyStrip t = "") :
    handle_voice m env =
      [Ev.statusCreated processingText,
       Ev.downloadCall (file_path_of m ext),
       Ev.fileCreated (file_path_of m ext),
       Ev.transcribeCall (file_path_of m ext),
       Ev.transcribeDone t,
       Ev.edited notRecognizedText,
       Ev.fileRemoved (file_path_of m ext)] ∧
    (∀ r, Ev.summarizeCall r ∉ handle_voice m env) := by
  have ht : (t == "" || pyStrip t == "") = true := by
    rcases he with h | h <;> simp [h]
  constructor
  · simp [handle_voice, hc, pipeline, hdl, htr, ht]
  · intro r
    simp [handle_voice, hc, pipeline, hdl, htr, ht]

/-- C4 witness: a concrete whitespace-only transcript. -/
theorem C4_empty_transcript_witness :
    handle_voice ⟨1, 2, some ⟨"fid"⟩, none, none⟩ ⟨.ok (), .ok "  \n ", .ok "y"⟩ =
      [Ev.statusCreated processingText,
       Ev.downloadCall (file_path_of ⟨1, 2, some ⟨"fid"⟩, none, none⟩ "ogg"),
       Ev.fileCreated (file_path_of ⟨1, 2, some ⟨"fid"⟩, none, none⟩ "ogg"),
       Ev.transcribeCall (file_path_of ⟨1, 2, some ⟨"fid"⟩, none, none⟩ "ogg"),
       Ev.transcribeDone "  \n ",
       Ev.edited notRecognizedText,
       Ev.fileRemoved (file_path_of ⟨1, 2, some ⟨"fid"⟩, none, none⟩ "ogg")] ∧
    (∀ r, Ev.summarizeCall r ∉
      handle_voice ⟨1, 2, some ⟨"fid"⟩, none, none⟩ ⟨.ok (), .ok "  \n ", .ok "y"⟩) :=
  C4_empty_transcript ⟨1, 2, some ⟨"fid"⟩, none, none⟩ ⟨.ok (), .ok "  \n ", .ok "y"⟩
    "ogg" "  \n " rfl rfl rfl (Or.inr (by decide))

/-- C5: every exception raised by the download, transcribe or summarize step
is caught once, and the single resulting status-reply edit carries the
specific low-audio-quality text if and only if the exception text contains
the signature `Could not process audio`, else the generic failure text; the
handler always returns a trace (the failure never escapes). -/
theorem C5_error_classified (m : Msg) (env : Env) (ext e : String)
    (hc : classify m = some ext) (he : stageError env = some e) :
    (handle_voice m env).filter isEdit =
      [Ev.edited (if strContains e "Could not process audio" then lowQualityText
                  else genericErrorText)] := by
  rcases env with ⟨dl, tr, sm⟩
  rcases dl with ⟨created, e'⟩ | u
  · simp only [stageError, Option.some.injEq] at he
    subst he
    cases created <;>
      simp [handle_voice, hc, pipeline, exceptEvents, errText, qualitySig, isEdit]
  · cases u
    rcases tr with e' | t
    · simp only [stageError, Option.some.injEq] at he
      subst he
      simp [handle_voice, hc, pipeline, exceptEvents, errText, qualitySig, isEdit]
    · by_cases ht : (t == "" || pyStrip t == "") = true
      · simp [stageError, ht] at he
      · rcases sm with e' | th
        · simp only [stageError] at he
          rw [if_neg ht] at he
          simp only [Option.some.injEq] at he
          subst he
          simp [handle_voice, hc, pipeline, ht, exceptEvents, errText, qualitySig, isEdit]
        · simp [stageError, ht] at he

/-- C5 witness: a transcription failure carrying the signature. -/
theorem C5_error_classified_witness :
    (handle_voice ⟨1, 2, some ⟨"fid"⟩, none, none⟩
        ⟨.ok (), .error "Error: Could not process audio", .ok "y"⟩).filter isEdit =
      [Ev.edited (if strContains "Error: Could not process audio" "Could not process audio"
                  then lowQualityText else genericErrorText)] :=
  C5_error_classified ⟨1, 2, some ⟨"fid"⟩, none, none⟩
    ⟨.ok (), .error "Error: Could not process audio", .ok "y"⟩ "ogg"
    "Error: Could not process audio" rfl rfl

/-- C6: extension inference — a voice attachment always yields the fixed
container extension `ogg`; an audio or audio-MIME document attachment with a
declared (non-empty) filename yields the last dot-separated suffix of that
filename, case preserved (`clip.WAV` yields `WAV`); with no declared
filename a fixed fallback extension is used (`mp3` for audio, `ogg` for
documents). -/
theorem C6_extension_inference :
    (∀ m v, m.voice = some v → classify m = some "ogg")
  ∧ (∀ m a fn, m.voice = none → m.audio = some a → a.file_name = some fn → fn ≠ "" →
        classify m = some (pyLastSuffix fn))
  ∧ (∀ m d fn, m.voice = none → m.audio = none → m.document = some d →
        pyStarts (d.mime_type.getD "") "audio/" = true → d.file_name = some fn → fn ≠ "" →
        classify m = some (pyLastSuffix fn))
  ∧ pyLastSuffix "clip.WAV" = "WAV"
  ∧ (∀ m a, m.voice = none → m.audio = some a → a.file_name = none →
        classify m = some "mp3")
  ∧ (∀ m d, m.voice = none → m.audio = none → m.document = some d →
        pyStarts (d.mime_type.getD "") "audio/" = true → d.file_name = none →
        classify m = some "ogg") := by
  refine ⟨?_, ?_, ?_, by decide, ?_, ?_⟩
  · intro m v hv
    simp [classify, hv]
  · intro m a fn hv ha hfn hne
    simp [classify, hv, ha, hfn, optTruthy, hne]
  · intro m d fn hv ha hd hm hfn hne
    simp [classify, hv, ha, hd, hm, hfn, optTruthy, hne]
  · intro m a hv ha hfn
    simp [classify, hv, ha, hfn, optTruthy]
  · intro m d hv ha hd hm hfn
    simp [classify, hv, ha, hd, hm, hfn, optTruthy]

/-- C6 witness: an audio attachment named `clip.WAV` yields extension
`WAV`. -/
theorem C6_extension_inference_witness :
    classify ⟨1, 2, none, some ⟨"fid", some "clip.WAV"⟩, none⟩ = some (pyLastSuffix "clip.WAV") :=
  C6_extension_inference.2.1 ⟨1, 2, none, some ⟨"fid", some "clip.WAV"⟩, none⟩
    ⟨"fid", some "clip.WAV"⟩ "clip.WAV" rfl rfl rfl (by decide)

/-- C7 counterexample: with both secrets present in the environment but the
token set to the empty string, `main` still raises (Python truthiness) and
the serving loop is never started — refuting "if both are present, the
serving loop is started". -/
theorem C7_startup_counterexample :
    (getenv ⟨[("TELEGRAM_BOT_TOKEN", ""), ("OPENAI_API_KEY", "key")]⟩
      "TELEGRAM_BOT_TOKEN").isSome = true ∧
    (getenv ⟨[("TELEGRAM_BOT_TOKEN", ""), ("OPENAI_API_KEY", "key")]⟩
      "OPENAI_API_KEY").isSome = true ∧
    (main_run ⟨[("TELEGRAM_BOT_TOKEN", ""), ("OPENAI_API_KEY", "key")]⟩).servingStarted = false ∧
    (main_run ⟨[("TELEGRAM_BOT_TOKEN", ""), ("OPENAI_API_KEY", "key")]⟩).raised.isSome = true := by
  decide

/-- C7 (amended): if either required secret is absent from the environment
or set to the empty string, `main` raises before constructing the
application and never starts serving; if both are present and non-empty,
the serving loop is started. -/
theorem C7_startup_check (env : OsEnv) :
    ((getenv env "TELEGRAM_BOT_TOKEN" = none ∨ getenv env "TELEGRAM_BOT_TOKEN" = some ""
        ∨ getenv env "OPENAI_API_KEY" = none ∨ getenv env "OPENAI_API_KEY" = some "") →
      (main_run env).raised.isSome = true ∧ (main_run env).appBuilt = false ∧
        (main_run env).servingStarted = false)
  ∧ ((∃ tk, getenv env "TELEGRAM_BOT_TOKEN" = some tk ∧ tk ≠ "") →
     (∃ ky, getenv env "OPENAI_API_KEY" = some ky ∧ ky ≠ "") →
      (main_run env).raised = none ∧ (main_run env).appBuilt = true ∧
        (main_run env).servingStarted = true) := by
  constructor
  · intro h
    have hfalsy : optTruthy (getenv env "TELEGRAM_BOT_TOKEN") = false
        ∨ optTruthy (getenv env "OPENAI_API_KEY") = false := by
      rcases h with h | h | h | h <;> simp [h, optTruthy]
    rcases hfalsy with h1 | h1
    · simp [main_run, h1]
    · rcases h2 : optTruthy (getenv env "TELEGRAM_BOT_TOKEN") with - | -
      · simp [main_run, h2]
      · simp [main_run, h2, h1]
  · rintro ⟨tk, htk, htke⟩ ⟨ky, hky, hkye⟩
    simp [main_run, htk, hky, optTruthy, htke, hkye]

/-- C7 witness: with both secrets present and non-empty the serving loop
starts. -/
theorem C7_startup_check_witness :
    (main_run ⟨[("TELEGRAM_BOT_TOKEN", "tok"), ("OPENAI_API_KEY", "key")]⟩).raised = none ∧
    (main_run ⟨[("TELEGRAM_BOT_TOKEN", "tok"), ("OPENAI_API_KEY", "key")]⟩).appBuilt = true ∧
    (main_run ⟨[("TELEGRAM_BOT_TOKEN", "tok"), ("OPENAI_API_KEY", "key")]⟩).servingStarted = true :=
  (C7_startup_check ⟨[("TELEGRAM_BOT_TOKEN", "tok"), ("OPENAI_API_KEY", "key")]⟩).2
    ⟨"tok", rfl, by decide⟩ ⟨"key", rfl, by decide⟩

/-- C8: on every audio-pipeline invocation the temporary path used for the
download and the local file is exactly `voice_<chat-id>_<message-id>.<ext>`
for the event's identifiers and inferred extension, and two invocations with
distinct (chat id, message id) pairs use distinct paths whatever the
extensions are. -/
theorem C8_path_deterministic :
    (∀ (m : Msg) (env : Env) (ext p : String), classify m = some ext →
        (Ev.downloadCall p ∈ handle_voice m env ∨ Ev.fileCreated p ∈ handle_voice m env) →
        p = "voice_" ++ natRepr m.chat_id ++ "_" ++ natRepr m.message_id ++ "." ++ ext)
  ∧ (∀ (c mi c' mi' : Nat) (e e' : String), (c, mi) ≠ (c', mi') →
        file_path c mi e ≠ file_path c' mi' e') := by
  constructor
  · intro m env ext p hc h
    have hv : handle_voice m env =
        Ev.statusCreated processingText :: pipeline (file_path_of m ext) env := by
      simp [handle_voice, hc]
    rw [hv] at h
    have hp : p = file_path_of m ext := by
      rcases pipeline_shape (file_path_of m ext) env with
        ⟨e, hq⟩ | ⟨e, hq⟩ | ⟨e, hq⟩ | ⟨t, ht, hq⟩ | ⟨t, e, ht, hq⟩ | ⟨t, th, ht, hq⟩ <;>
        rw [hq] at h <;> rcases h with h | h <;> simp [exceptEvents] at h <;> exact h
    exact hp
  · intro c mi c' mi' e e' hne heq
    obtain ⟨h1, h2⟩ := file_path_inj c mi c' mi' e e' heq
    exact hne (by rw [h1, h2])

/-- C8 witness: the path of a concrete invocation, and distinctness for a
concrete pair of distinct message identifiers. -/
theorem C8_path_deterministic_witness :
    "voice_1_2.ogg" =
      "voice_" ++ natRepr 1 ++ "_" ++ natRepr 2 ++ "." ++ "ogg" ∧
    file_path 1 2 "ogg" ≠ file_path 1 3 "ogg" :=
  ⟨C8_path_deterministic.1 ⟨1, 2, some ⟨"fid"⟩, none, none⟩
      ⟨.ok (), .ok "привет", .ok "т"⟩ "ogg" "voice_1_2.ogg" rfl (Or.inl (by decide)),
   C8_path_deterministic.2 1 2 1 3 "ogg" "ogg" (by decide)⟩

/-- C9: within one invocation the stages are strictly sequential — a
summarization call occurs only after the transcription has completed, and
only with a non-empty (not whitespace-only) transcript embedded as the user
content of the fixed request: system prompt, the transcript wrapped in the
fixed user template, temperature 0.3 and a 1000-token output cap. -/
theorem C9_sequential_summarize (m : Msg) (env : Env) (req : ChatRequest)
    (h : Ev.summarizeCall req ∈ handle_voice m env) :
    ∃ t l1 l2,
      handle_voice m env = l1 ++ Ev.summarizeCall req :: l2 ∧
      Ev.transcribeDone t ∈ l1 ∧
      ¬(t = "" ∨ pyStrip t = "") ∧
      req = { model := "gpt-4o-mini",
              messages := [⟨"system", SYSTEM_PROMPT⟩,
                           ⟨"user", "Выдели тезисы из следующего текста:\n\n" ++ t⟩],
              temperature := 0.3,
              max_tokens := 1000 } := by
  rcases handle_voice_shape m env with ⟨-, hv⟩ | ⟨ext, -, hv⟩
  · rw [hv] at h
    simp at h
  · rw [hv] at h ⊢
    rcases pipeline_shape (file_path_of m ext) env with
      ⟨e, hq⟩ | ⟨e, hq⟩ | ⟨e, hq⟩ | ⟨t, ht, hq⟩ | ⟨t, e, ht, hq⟩ | ⟨t, th, ht, hq⟩ <;>
      rw [hq] at h ⊢ <;> simp [exceptEvents] at h
    · refine ⟨t, [Ev.statusCreated processingText, Ev.downloadCall (file_path_of m ext),
        Ev.fileCreated (file_path_of m ext), Ev.transcribeCall (file_path_of m ext),
        Ev.transcribeDone t], exceptEvents (file_path_of m ext) true e,
        by simp [h], by simp, by simpa using ht,
        by simp [h, mkChatRequest, userContent]⟩
    · refine ⟨t, [Ev.statusCreated processingText, Ev.downloadCall (file_path_of m ext),
        Ev.fileCreated (file_path_of m ext), Ev.transcribeCall (file_path_of m ext),
        Ev.transcribeDone t],
        [Ev.edited (resultMessage t th), Ev.fileRemoved (file_path_of m ext)],
        by simp [h], by simp, by simpa using ht,
        by simp [h, mkChatRequest, userContent]⟩

/-- C9 witness: the concrete successful invocation contains a summarization
call, and the theorem applies to it. -/
theorem C9_sequential_summarize_witness :
    ∃ t l1 l2,
      handle_voice ⟨1, 2, some ⟨"fid"⟩, none, none⟩ ⟨.ok (), .ok "привет мир", .ok "1. тезис"⟩ =
        l1 ++ Ev.summarizeCall (mkChatRequest "привет мир") :: l2 ∧
      Ev.transcribeDone t ∈ l1 ∧
      ¬(t = "" ∨ pyStrip t = "") ∧
      mkChatRequest "привет мир" =
        { model := "gpt-4o-mini",
          messages := [⟨"system", SYSTEM_PROMPT⟩,
                       ⟨"user", "Выдели тезисы из следующего текста:\n\n" ++ t⟩],
          temperature := 0.3,
          max_tokens := 1000 } :=
  C9_sequential_summarize ⟨1, 2, some ⟨"fid"⟩, none, none⟩
    ⟨.ok (), .ok "привет мир", .ok "1. тезис"⟩ (mkChatRequest "привет мир")
    (List.Mem.tail _ (List.Mem.tail _ (List.Mem.tail _ (List.Mem.tail _
      (List.Mem.tail _ (List.Mem.head _))))))

/-- C10: the fallback extension is not a single value — an audio attachment
with no declared filename falls back to `mp3` while an audio-MIME document
with no declared filename falls back to `ogg`; and a declared filename with
no dot yields the entire filename as the extension. -/
theorem C10_fallback_divergence :
    (∀ m a, m.voice = none → m.audio = some a → a.file_name = none →
        classify m = some "mp3")
  ∧ (∀ m d, m.voice = none → m.audio = none → m.document = some d →
        pyStarts (d.mime_type.getD "") "audio/" = true → d.file_name = none →
        classify m = some "ogg")
  ∧ ("mp3" : String) ≠ "ogg"
  ∧ (∀ fn : String, '.' ∉ fn.data → pyLastSuffix fn = fn)
  ∧ pyLastSuffix "clip" = "clip" := by
  refine ⟨?_, ?_, by decide, ?_, by decide⟩
  · intro m a hv ha hfn
    simp [classify, hv, ha, hfn, optTruthy]
  · intro m d hv ha hd hm hfn
    simp [classify, hv, ha, hd, hm, hfn, optTruthy]
  · intro fn hdot
    have key : ∀ (l acc : List Char), '.' ∉ l →
        splitDotAux l acc = [acc.reverse ++ l] := by
      intro l
      induction l with
      | nil => intro acc _; simp [splitDotAux]
      | cons c cs ih =>
        intro acc hc
        have hne : ¬(c = '.') := fun h => hc (by simp [h])
        simp only [splitDotAux, if_neg hne]
        rw [ih (c :: acc) (fun h => hc (by simp [h]))]
        simp
    simp only [pyLastSuffix, pySplitDot, key fn.data [] hdot]
    simp

/-- C10 witness: the two concrete no-filename fallbacks diverge. -/
theorem C10_fallback_divergence_witness :
    classify ⟨1, 2, none, some ⟨"fid", none⟩, none⟩ = some "mp3" ∧
    classify ⟨1, 2, none, none, some ⟨"fid", none, some "audio/mpeg"⟩⟩ = some "ogg" :=
  ⟨C10_fallback_divergence.1 ⟨1, 2, none, some ⟨"fid", none⟩, none⟩ ⟨"fid", none⟩ rfl rfl rfl,
   C10_fallback_divergence.2.1 ⟨1, 2, none, none, some ⟨"fid", none, some "audio/mpeg"⟩⟩
     ⟨"fid", none, some "audio/mpeg"⟩ rfl rfl rfl (by decide) rfl⟩

end VoiceScribe
